import Mathlib

/-!
Verification of the AutoTest AI test-management application core:
suite access control (role resolution, permission mutation), run
configuration, the test-run state machine, run-outcome classification
and result export, shallowly embedded from the TypeScript sources
(`SuiteManager`, `TestRunner`, `Dashboard`, `App`, `geminiService`,
`types`).

JavaScript `Record<string, T>` objects are modelled as association
lists with unique keys; spread-update `{...o, [k]: v}` is `setEntry`,
`delete o[k]` is `removeEntry`, and `o[k]` is `lookupEntry`.
-/

namespace AutoTest

/-- Embeds `type TestStatus` from types.ts. -/
inductive TestStatus
  | IDLE
  | PASSED
  | FAILED
  | SKIPPED
deriving DecidableEq, Repr

/-- Embeds `type Role` from types.ts. -/
inductive Role
  | ADMIN
  | MEMBER
  | OBSERVER
deriving DecidableEq, Repr

/-- The `Role | 'NONE'` result type of `getUserRole` in SuiteManager. -/
inductive RoleN
  | ADMIN
  | MEMBER
  | OBSERVER
  | NONE
deriving DecidableEq, Repr

/-- Injection of a stored `Role` into the `Role | 'NONE'` result type. -/
def Role.toRoleN : Role → RoleN
  | Role.ADMIN => RoleN.ADMIN
  | Role.MEMBER => RoleN.MEMBER
  | Role.OBSERVER => RoleN.OBSERVER

/-- The `'WEB' | 'DESKTOP'` application type. -/
inductive AppContextType
  | WEB
  | DESKTOP
deriving DecidableEq, Repr

/-- The `'MANUAL' | 'AUTOMATED'` execution mode. -/
inductive ExecutionMode
  | MANUAL
  | AUTOMATED
deriving DecidableEq, Repr

/-- The `'Low' | 'Medium' | 'High'` test-case priority. -/
inductive CasePriority
  | Low
  | Medium
  | High
deriving DecidableEq, Repr

/-- Embeds `interface TestStep` from types.ts. -/
structure TestStep where
  id : String
  action : String
  expectedResult : String
deriving DecidableEq, Repr

/-- Embeds `interface TestCase` from types.ts. -/
structure TestCase where
  id : String
  title : String
  description : Option String
  steps : List TestStep
  priority : CasePriority
deriving DecidableEq, Repr

/-- The `targetConfig` field type of `interface TestSuite`. -/
structure TargetConfig where
  appType : AppContextType
  appAddress : String
  testEmail : Option String
  executionMode : Option ExecutionMode
  mockAssets : Option (List String)
deriving DecidableEq, Repr

/-- Embeds `interface TestSuite` from types.ts; the optional `permissions`
record maps user ids to roles. -/
structure TestSuite where
  id : String
  name : String
  description : String
  createdAt : String
  cases : List TestCase
  permissions : Option (List (String × Role))
  targetConfig : Option TargetConfig
deriving DecidableEq, Repr

/-- Embeds `interface TestResult` from types.ts. -/
structure TestResult where
  caseId : String
  status : TestStatus
  notes : Option String
  timestamp : String
deriving DecidableEq, Repr

/-- The `'IN_PROGRESS' | 'COMPLETED'` run status. -/
inductive RunStatus
  | IN_PROGRESS
  | COMPLETED
deriving DecidableEq, Repr

/-- Embeds `interface TestRun` from types.ts; `results` maps case ids to results. -/
structure TestRun where
  id : String
  suiteId : String
  suiteName : String
  startTime : String
  endTime : Option String
  status : RunStatus
  results : List (String × TestResult)
deriving DecidableEq, Repr

/-- Embeds `interface User` from types.ts. -/
structure User where
  id : String
  name : String
  email : String
  avatar : String
deriving DecidableEq, Repr

/-- JS record read `o[k]` (keys are unique in a JS object). -/
def lookupEntry {α : Type} : List (String × α) → String → Option α
  | [], _ => none
  | p :: ps, k => if p.1 == k then some p.2 else lookupEntry ps k

/-- JS record update `{...o, [k]: v}`: replaces the value at an existing
key in place, otherwise appends the new entry. -/
def setEntry {α : Type} : List (String × α) → String → α → List (String × α)
  | [], k, v => [(k, v)]
  | p :: ps, k, v => if p.1 == k then (k, v) :: ps else p :: setEntry ps k v

/-- JS record deletion `delete o[k]`. -/
def removeEntry {α : Type} : List (String × α) → String → List (String × α)
  | [], _ => []
  | p :: ps, k => if p.1 == k then removeEntry ps k else p :: removeEntry ps k

theorem lookupEntry_setEntry_self {α : Type} (ps : List (String × α)) (k : String) (v : α) :
    lookupEntry (setEntry ps k v) k = some v := by
  induction ps with
  | nil => simp [setEntry, lookupEntry]
  | cons p ps ih =>
    by_cases h : p.1 == k
    · simp [setEntry, h, lookupEntry]
    · simp [setEntry, h, lookupEntry, ih]

theorem lookupEntry_setEntry_ne {α : Type} (ps : List (String × α)) (k k' : String) (v : α)
    (h : k ≠ k') : lookupEntry (setEntry ps k v) k' = lookupEntry ps k' := by
  induction ps with
  | nil => simp [setEntry, lookupEntry, h]
  | cons p ps ih =>
    by_cases hp : p.1 == k
    · have hpk : p.1 = k := by simpa using hp
      simp [setEntry, hp, lookupEntry, h, hpk]
    · simp [setEntry, hp, lookupEntry, ih]

theorem lookupEntry_setEntry_or {α : Type} (ps : List (String × α)) (k k' : String) (v r : α)
    (h : lookupEntry (setEntry ps k v) k' = some r) :
    lookupEntry ps k' = some r ∨ r = v := by
  by_cases hk : k = k'
  · subst hk
    rw [lookupEntry_setEntry_self] at h
    exact Or.inr (Option.some_injective _ h).symm
  · rw [lookupEntry_setEntry_ne ps k k' v hk] at h
    exact Or.inl h

theorem lookupEntry_removeEntry_self {α : Type} (ps : List (String × α)) (k : String) :
    lookupEntry (removeEntry ps k) k = none := by
  induction ps with
  | nil => simp [removeEntry, lookupEntry]
  | cons p ps ih =>
    by_cases hp : p.1 == k
    · simp [removeEntry, hp, ih]
    · simp [removeEntry, hp, lookupEntry, ih]

theorem lookupEntry_removeEntry_ne {α : Type} (ps : List (String × α)) (k k' : String)
    (h : k ≠ k') : lookupEntry (removeEntry ps k) k' = lookupEntry ps k' := by
  induction ps with
  | nil => simp [removeEntry]
  | cons p ps ih =>
    by_cases hp : p.1 == k
    · have hpk : p.1 = k := by simpa using hp
      have : ¬ (p.1 == k') := by simp [hpk, h]
      simp [removeEntry, hp, lookupEntry, this, ih]
    · simp [removeEntry, hp, lookupEntry, ih]

-- ------------------------------------------------------------------
-- Role resolver (SuiteManager)
-- ------------------------------------------------------------------

/-- The hardcoded super-admin address `'administrator@autotest.ai'`. -/
def superAdminEmail : String := "administrator@autotest.ai"

/-- Embeds `const isGlobalAdmin = currentUser.email === 'administrator@autotest.ai'`. -/
def isGlobalAdmin (u : User) : Bool := u.email == superAdminEmail

/-- Embeds `getUserRole` from SuiteManager: super-admin short-circuits to `ADMIN`,
an absent permission record resolves to `NONE`, otherwise the record's
entry for the user id, defaulting to `NONE`. -/
def getUserRole (currentUser : User) (suite : TestSuite) : RoleN :=
  if isGlobalAdmin currentUser then RoleN.ADMIN
  else
    match suite.permissions with
    | none => RoleN.NONE
    | some perms =>
      match lookupEntry perms currentUser.id with
      | some r => r.toRoleN
      | none => RoleN.NONE

/-- Embeds `visibleSuites` from SuiteManager: the sidebar filter keeps the suites
whose resolved role is not `NONE`. -/
def visibleSuites (currentUser : User) (suites : List TestSuite) : List TestSuite :=
  suites.filter (fun s => getUserRole currentUser s != RoleN.NONE)

/-- Embeds `createSuite` from SuiteManager: a fresh suite seeded with the creator
as `ADMIN` in its permission record. -/
def createSuite (currentUser : User) (freshId now : String) : TestSuite :=
  { id := freshId
    name := "새 테스트 스위트"
    description := "테스트 스위트 설명"
    createdAt := now
    cases := []
    permissions := some [(currentUser.id, Role.ADMIN)]
    targetConfig := none }

-- ------------------------------------------------------------------
-- Concrete fixtures used by witnesses and counterexamples
-- ------------------------------------------------------------------

/-- A user carrying the super-admin address. -/
def adminUser : User :=
  { id := "admin_1", name := "최고 관리자", email := "administrator@autotest.ai", avatar := "🛡️" }

/-- An ordinary user. -/
def bearUser : User :=
  { id := "u1", name := "테스터 곰", email := "bear@autotest.ai", avatar := "🐻" }

/-- A second ordinary user. -/
def daveUser : User :=
  { id := "u2", name := "개발자 데이브", email := "dave@dev.co", avatar := "👨‍💻" }

/-- A suite whose permission record maps the super-admin's id to the
lowest role and has no entry for `daveUser`. -/
def authSuite : TestSuite :=
  { id := "1"
    name := "인증 흐름"
    description := "로그인 시나리오"
    createdAt := "2026-01-01"
    cases := []
    permissions := some [("admin_1", Role.OBSERVER), ("u1", Role.ADMIN)]
    targetConfig := none }

/-- A suite with no permission record at all. -/
def orphanSuite : TestSuite :=
  { id := "2"
    name := "비어 있는 스위트"
    description := ""
    createdAt := "2026-01-02"
    cases := []
    permissions := none
    targetConfig := none }

-- ------------------------------------------------------------------
-- C1 / C2 / C9
-- ------------------------------------------------------------------

/-- C1: for every suite S and user U whose email is the fixed super-admin
address, `getUserRole` returns `ADMIN` regardless of S's permission
record (absent or mapping U's id to a lower role included). -/
theorem c1_superadmin_always_admin (S : TestSuite) (U : User)
    (h : U.email = superAdminEmail) : getUserRole U S = RoleN.ADMIN := by
  simp [getUserRole, isGlobalAdmin, h]

/-- Witness for C1: the super-admin resolves to `ADMIN` even on a suite
whose record maps their id to `OBSERVER`, and on a suite with no record. -/
theorem c1_superadmin_always_admin_witness :
    adminUser.email = superAdminEmail
    ∧ lookupEntry [("admin_1", Role.OBSERVER), ("u1", Role.ADMIN)] adminUser.id
        = some Role.OBSERVER
    ∧ getUserRole adminUser authSuite = RoleN.ADMIN
    ∧ getUserRole adminUser orphanSuite = RoleN.ADMIN :=
  ⟨rfl, by decide,
    c1_superadmin_always_admin authSuite adminUser rfl,
    c1_superadmin_always_admin orphanSuite adminUser rfl⟩

/-- C2: a non-super-admin user with no entry in a suite's permission
record (or whose suite has no record) resolves to `NONE`, and that suite
is excluded from every visible-suite list computed for the user. -/
theorem c2_no_entry_hidden (S : TestSuite) (U : User)
    (h1 : U.email ≠ superAdminEmail)
    (h2 : S.permissions.bind (fun ps => lookupEntry ps U.id) = none) :
    getUserRole U S = RoleN.NONE
    ∧ ∀ suites : List TestSuite, S ∉ visibleSuites U suites := by
  have hadmin : isGlobalAdmin U = false := by
    simp [isGlobalAdmin, h1]
  have hrole : getUserRole U S = RoleN.NONE := by
    unfold getUserRole
    rw [hadmin]
    cases hp : S.permissions with
    | none => rfl
    | some perms =>
      rw [hp] at h2
      simp only [Option.some_bind] at h2
      simp [h2]
  refine ⟨hrole, ?_⟩
  intro suites hmem
  unfold visibleSuites at hmem
  have hm := List.of_mem_filter hmem
  simp only [hrole] at hm
  exact absurd hm (by decide)

/-- Witness for C2: `daveUser` has no entry in `authSuite`'s record and no
record exists on `orphanSuite`; both resolve to `NONE` and `authSuite` is
absent from dave's sidebar over the two-suite collection. -/
theorem c2_no_entry_hidden_witness :
    daveUser.email ≠ superAdminEmail
    ∧ authSuite.permissions.bind (fun ps => lookupEntry ps daveUser.id) = none
    ∧ getUserRole daveUser authSuite = RoleN.NONE
    ∧ authSuite ∉ visibleSuites daveUser [authSuite, orphanSuite] := by
  have h := c2_no_entry_hidden authSuite daveUser (by decide) (by decide)
  exact ⟨by decide, by decide, h.1, h.2 [authSuite, orphanSuite]⟩

/-- C9: every suite produced by `createSuite` carries a permission record
containing the creating user's id with role `ADMIN`. -/
theorem c9_creator_seeded_admin (u : User) (freshId now : String) :
    ∃ perms, (createSuite u freshId now).permissions = some perms
      ∧ lookupEntry perms u.id = some Role.ADMIN := by
  refine ⟨[(u.id, Role.ADMIN)], rfl, ?_⟩
  simp [lookupEntry]

-- ------------------------------------------------------------------
-- SuiteManager state: permission mutation and run configuration
-- ------------------------------------------------------------------

/-- The SuiteManager component state that the permission and run-config
handlers read and write: the `suites` collection and `activeSuiteId`. -/
structure SMState where
  suites : List TestSuite
  activeSuiteId : Option String
deriving DecidableEq, Repr

/-- Embeds `const activeSuite = suites.find(s => s.id === activeSuiteId)`. -/
def findActiveSuite (st : SMState) : Option TestSuite :=
  st.suites.find? (fun s => some s.id == st.activeSuiteId)

/-- Embeds `suites.map(s => s.id === activeSuite.id ? updatedSuite : s)`. -/
def replaceSuite (suites : List TestSuite) (aid : String) (updated : TestSuite) :
    List TestSuite :=
  suites.map (fun s => if s.id == aid then updated else s)

/-- Embeds `handleAddPermission` from SuiteManager: no-op without an active suite
or with a blank target user, otherwise insert/overwrite the entry on the
active suite (note `{...activeSuite.permissions}` turns an absent record
into an empty one). -/
def handleAddPermission (permUserToAdd : String) (permRoleToAdd : Role)
    (st : SMState) : SMState :=
  match findActiveSuite st with
  | none => st
  | some a =>
    if permUserToAdd == "" then st
    else
      let updated := { a with
        permissions := some (setEntry (a.permissions.getD []) permUserToAdd permRoleToAdd) }
      { st with suites := replaceSuite st.suites a.id updated }

/-- Embeds `handleRemovePermission` from SuiteManager. The browser `confirm`
dialog is modelled by the explicit `confirmAnswer` argument: it is
consulted only when the acting user removes their own entry and is not
the super-admin, and a declined confirmation returns before any
mutation. After removing one's own entry (non-super-admin) the active
suite selection is cleared. -/
def handleRemovePermission (confirmAnswer : Bool) (currentUser : User)
    (userId : String) (st : SMState) : SMState :=
  match findActiveSuite st with
  | none => st
  | some a =>
    if userId == currentUser.id && !(isGlobalAdmin currentUser) && !confirmAnswer then st
    else
      let updated := { a with
        permissions := some (removeEntry (a.permissions.getD []) userId) }
      { suites := replaceSuite st.suites a.id updated
        activeSuiteId :=
          if userId == currentUser.id && !(isGlobalAdmin currentUser) then none
          else st.activeSuiteId }

/-- Embeds `handleChangePermission` from SuiteManager: insert/overwrite like add,
without the blank-user guard. -/
def handleChangePermission (userId : String) (newRole : Role) (st : SMState) : SMState :=
  match findActiveSuite st with
  | none => st
  | some a =>
    let updated := { a with
      permissions := some (setEntry (a.permissions.getD []) userId newRole) }
    { st with suites := replaceSuite st.suites a.id updated }

/-- The run-configuration inputs of the run modal (`runAppType`,
`runAddress`, `runEmail`, `runMode`, `runAssets`). -/
structure RunDraft where
  runAppType : AppContextType
  runAddress : String
  runEmail : String
  runMode : ExecutionMode
  runAssets : List String
deriving DecidableEq, Repr

/-- Embeds `confirmRun` from SuiteManager: freezes the draft configuration onto
the active suite and emits the updated suite to `onRunSuite`; a no-op
emitting nothing when no suite is active. -/
def confirmRun (draft : RunDraft) (st : SMState) : SMState × Option TestSuite :=
  match findActiveSuite st with
  | none => (st, none)
  | some a =>
    let updated := { a with
      targetConfig := some
        { appType := draft.runAppType
          appAddress := draft.runAddress
          testEmail := some draft.runEmail
          executionMode := some draft.runMode
          mockAssets := some draft.runAssets } }
    ({ st with suites := replaceSuite st.suites a.id updated }, some updated)

theorem findActiveSuite_of_no_active (st : SMState) (h : st.activeSuiteId = none) :
    findActiveSuite st = none := by
  unfold findActiveSuite
  rw [List.find?_eq_none]
  intro s _
  rw [h]
  simp

theorem replaceSuite_length (suites : List TestSuite) (aid : String) (u : TestSuite) :
    (replaceSuite suites aid u).length = suites.length :=
  List.length_map _ _

theorem replaceSuite_frame (suites : List TestSuite) (aid : String) (u : TestSuite)
    (i : Nat) (s : TestSuite) (hi : suites[i]? = some s) (hne : s.id ≠ aid) :
    (replaceSuite suites aid u)[i]? = some s := by
  unfold replaceSuite
  rw [List.getElem?_map, hi]
  simp [hne]

-- Fixtures for the SuiteManager claims.

/-- A second distinct suite sharing no id with `authSuite`. -/
def boardSuite : TestSuite :=
  { id := "3"
    name := "이슈 보드"
    description := ""
    createdAt := "2026-01-03"
    cases := []
    permissions := some [("u1", Role.MEMBER)]
    targetConfig := none }

/-- A two-suite manager state with `authSuite` active. -/
def demoSM : SMState :=
  { suites := [authSuite, boardSuite], activeSuiteId := some "1" }

/-- The same collection with nothing selected. -/
def demoSMNoActive : SMState :=
  { suites := [authSuite, boardSuite], activeSuiteId := none }

-- ------------------------------------------------------------------
-- C3: self-removal confirmation
-- ------------------------------------------------------------------

/-- C3: with an active suite, a non-super-admin removing their own entry
is gated on the confirmation answer — declining leaves the whole state
(suites collection included) unchanged, proceeding clears the active
suite selection — while removing another user's entry or the super-admin
removing their own ignores the confirmation answer entirely. -/
theorem c3_self_removal_confirmation (st : SMState) (a : TestSuite)
    (cu : User) (userId : String) (ha : findActiveSuite st = some a) :
    (userId = cu.id → isGlobalAdmin cu = false →
        handleRemovePermission false cu userId st = st
        ∧ (handleRemovePermission true cu userId st).activeSuiteId = none)
    ∧ ((userId ≠ cu.id ∨ isGlobalAdmin cu = true) →
        handleRemovePermission true cu userId st
          = handleRemovePermission false cu userId st) := by
  constructor
  · intro hself hng
    subst hself
    unfold handleRemovePermission
    rw [ha, hng]
    simp
  · intro hother
    unfold handleRemovePermission
    rw [ha]
    rcases hother with hne | hg
    · have : (userId == cu.id) = false := by simp [hne]
      simp [this]
    · simp [hg]

/-- Witness for C3: `bearUser` (non-super-admin) removing their own entry
from the active `authSuite`: declining changes nothing, proceeding clears
the selection; and the super-admin removing their own entry is the same
with either confirmation answer. -/
theorem c3_self_removal_confirmation_witness :
    findActiveSuite demoSM = some authSuite
    ∧ handleRemovePermission false bearUser bearUser.id demoSM = demoSM
    ∧ (handleRemovePermission true bearUser bearUser.id demoSM).activeSuiteId = none
    ∧ handleRemovePermission true adminUser adminUser.id demoSM
        = handleRemovePermission false adminUser adminUser.id demoSM := by
  have h := c3_self_removal_confirmation demoSM authSuite bearUser bearUser.id (by decide)
  have h2 := c3_self_removal_confirmation demoSM authSuite adminUser adminUser.id (by decide)
  exact ⟨by decide, (h.1 rfl (by decide)).1, (h.1 rfl (by decide)).2,
    h2.2 (Or.inr (by decide))⟩

-- ------------------------------------------------------------------
-- C10: frame property of permission mutation and confirmRun
-- ------------------------------------------------------------------

/-- C10: each permission mutation and `confirmRun` preserves the length
(and order) of the suites collection and returns every suite whose id
differs from the active suite's id unchanged at its position; with no
active suite selected, all four operations leave the state unchanged
(and `confirmRun` emits no run request). -/
theorem c10_mutation_frame (st : SMState) (a : TestSuite) (uid : String) (role : Role)
    (confirmAnswer : Bool) (cu : User) (rmId chId : String) (chRole : Role)
    (draft : RunDraft) :
    (findActiveSuite st = some a →
        ((handleAddPermission uid role st).suites.length = st.suites.length
          ∧ ∀ (i : Nat) (s : TestSuite), st.suites[i]? = some s → s.id ≠ a.id →
              (handleAddPermission uid role st).suites[i]? = some s)
        ∧ ((handleRemovePermission confirmAnswer cu rmId st).suites.length
              = st.suites.length
          ∧ ∀ (i : Nat) (s : TestSuite), st.suites[i]? = some s → s.id ≠ a.id →
              (handleRemovePermission confirmAnswer cu rmId st).suites[i]? = some s)
        ∧ ((handleChangePermission chId chRole st).suites.length = st.suites.length
          ∧ ∀ (i : Nat) (s : TestSuite), st.suites[i]? = some s → s.id ≠ a.id →
              (handleChangePermission chId chRole st).suites[i]? = some s)
        ∧ (((confirmRun draft st).1.suites.length = st.suites.length
          ∧ ∀ (i : Nat) (s : TestSuite), st.suites[i]? = some s → s.id ≠ a.id →
              (confirmRun draft st).1.suites[i]? = some s)))
    ∧ (st.activeSuiteId = none →
        handleAddPermission uid role st = st
        ∧ handleRemovePermission confirmAnswer cu rmId st = st
        ∧ handleChangePermission chId chRole st = st
        ∧ (confirmRun draft st).1 = st
        ∧ (confirmRun draft st).2 = none) := by
  constructor
  · intro ha
    have frame : ∀ l' : List TestSuite,
        (l' = st.suites ∨ ∃ u, l' = replaceSuite st.suites a.id u) →
        l'.length = st.suites.length
          ∧ ∀ (i : Nat) (s : TestSuite), st.suites[i]? = some s → s.id ≠ a.id →
              l'[i]? = some s := by
      rintro l' (rfl | ⟨u, rfl⟩)
      · exact ⟨rfl, fun i s hi _ => hi⟩
      · exact ⟨replaceSuite_length _ _ _, fun i s hi hne => replaceSuite_frame _ _ _ i s hi hne⟩
    refine ⟨frame _ ?_, frame _ ?_, frame _ ?_, frame _ ?_⟩
    · unfold handleAddPermission
      rw [ha]
      dsimp only
      by_cases hu : (uid == "") = true
      · rw [if_pos hu]
        exact Or.inl rfl
      · rw [if_neg hu]
        exact Or.inr ⟨_, rfl⟩
    · unfold handleRemovePermission
      rw [ha]
      dsimp only
      by_cases hc : (rmId == cu.id && !isGlobalAdmin cu && !confirmAnswer) = true
      · rw [if_pos hc]
        exact Or.inl rfl
      · rw [if_neg hc]
        exact Or.inr ⟨_, rfl⟩
    · unfold handleChangePermission
      rw [ha]
      exact Or.inr ⟨_, rfl⟩
    · unfold confirmRun
      rw [ha]
      exact Or.inr ⟨_, rfl⟩
  · intro hno
    have hfind := findActiveSuite_of_no_active st hno
    refine ⟨?_, ?_, ?_, ?_, ?_⟩
    · unfold handleAddPermission
      rw [hfind]
    · unfold handleRemovePermission
      rw [hfind]
    · unfold handleChangePermission
      rw [hfind]
    · unfold confirmRun
      rw [hfind]
    · unfold confirmRun
      rw [hfind]

/-- Witness for C10: on the two-suite state with `authSuite` active, each
operation keeps the collection length 2 and leaves `boardSuite` untouched
at position 1; with nothing selected all four operations are identities. -/
theorem c10_mutation_frame_witness :
    (handleAddPermission "u2" Role.MEMBER demoSM).suites.length = 2
    ∧ (handleAddPermission "u2" Role.MEMBER demoSM).suites[1]? = some boardSuite
    ∧ (handleRemovePermission true bearUser "u1" demoSM).suites[1]? = some boardSuite
    ∧ (handleChangePermission "u1" Role.OBSERVER demoSM).suites[1]? = some boardSuite
    ∧ (confirmRun ⟨AppContextType.WEB, "https://example.com", "", ExecutionMode.MANUAL, []⟩
        demoSM).1.suites[1]? = some boardSuite
    ∧ handleAddPermission "u2" Role.MEMBER demoSMNoActive = demoSMNoActive
    ∧ (confirmRun ⟨AppContextType.WEB, "", "", ExecutionMode.MANUAL, []⟩
        demoSMNoActive).2 = none := by
  have h := c10_mutation_frame demoSM authSuite "u2" Role.MEMBER true bearUser "u1" "u1"
    Role.OBSERVER ⟨AppContextType.WEB, "https://example.com", "", ExecutionMode.MANUAL, []⟩
  have hsome := h.1 (by decide)
  have h2 := c10_mutation_frame demoSMNoActive authSuite "u2" Role.MEMBER true bearUser "u1"
    "u1" Role.OBSERVER ⟨AppContextType.WEB, "", "", ExecutionMode.MANUAL, []⟩
  have hnone := h2.2 rfl
  refine ⟨hsome.1.1.trans (by decide), ?_, ?_, ?_, ?_, hnone.1, hnone.2.2.2.2⟩
  · exact hsome.1.2 1 boardSuite (by decide) (by decide)
  · exact hsome.2.1.2 1 boardSuite (by decide) (by decide)
  · exact hsome.2.2.1.2 1 boardSuite (by decide) (by decide)
  · exact hsome.2.2.2.2 1 boardSuite (by decide) (by decide)

-- ------------------------------------------------------------------
-- geminiService: simulated test execution
-- ------------------------------------------------------------------

/-- The possible outcomes of the remote generative-AI call made by
`simulateTestExecution`: a parsed structured response, a response with no
text (the `if (!jsonText) throw` path), or a thrown API error. -/
inductive SimApi
  | ok (status : TestStatus) (logs : String)
  | noText
  | apiError
deriving DecidableEq, Repr

/-- The `try` body of `simulateTestExecution`: returns the parsed
status/notes pair, or the error that the body throws. -/
def simulateTestExecutionTry : SimApi → Except String (TestStatus × String)
  | SimApi.ok s logs => Except.ok (s, logs)
  | SimApi.noText => Except.error "No response from AI"
  | SimApi.apiError => Except.error "API call failed"

/-- The fixed fallback note `'AI 시뮬레이션 실패'` returned by
`simulateTestExecution` when its body throws. -/
def simulationFallbackNote : String := "AI 시뮬레이션 실패"

/-- Embeds `simulateTestExecution` from geminiService: its `catch` converts any
failure of the body into a `SKIPPED` result with the fixed fallback note,
so the function itself never throws to its caller. -/
def simulateTestExecution (api : SimApi) : TestStatus × String :=
  match simulateTestExecutionTry api with
  | Except.ok r => r
  | Except.error _ => (TestStatus.SKIPPED, simulationFallbackNote)

-- ------------------------------------------------------------------
-- TestRunner state machine
-- ------------------------------------------------------------------

/-- Embeds `suite.targetConfig?.executionMode === 'AUTOMATED'`. -/
def isAutomatedMode (suite : TestSuite) : Bool :=
  match suite.targetConfig with
  | some cfg => cfg.executionMode == some ExecutionMode.AUTOMATED
  | none => false

/-- The TestRunner component state: cursor index, per-case result record,
the simulated-log record and the automation-loop flag. -/
structure RunnerState where
  currentCaseIndex : Nat
  results : List (String × TestResult)
  simulatedLogs : List (String × String)
  isAutoRunning : Bool
deriving DecidableEq, Repr

/-- The results-initialization effect: every case of the suite is seeded
with an `IDLE` result stamped with the start time. -/
def initialResults (suite : TestSuite) (now : String) : List (String × TestResult) :=
  suite.cases.foldl
    (fun acc c =>
      setEntry acc c.id { caseId := c.id, status := TestStatus.IDLE, notes := none, timestamp := now })
    []

/-- The TestRunner mount state: cursor at 0, all results `IDLE`, and the
automation flag set exactly in automated mode. -/
def initRunner (suite : TestSuite) (now : String) : RunnerState :=
  { currentCaseIndex := 0
    results := initialResults suite now
    simulatedLogs := []
    isAutoRunning := isAutomatedMode suite }

/-- Embeds `const isLastCase = currentCaseIndex === suite.cases.length - 1`. -/
def isLastCase (suite : TestSuite) (st : RunnerState) : Bool :=
  st.currentCaseIndex == suite.cases.length - 1

/-- Embeds `handleStatus` from TestRunner: overwrite the current case's result
with the given verdict (keeping the old notes when none, or a blank note,
is supplied), then in manual mode auto-advance the cursor when the
verdict is not `IDLE` and the case is not last. An out-of-range cursor or
an uninitialized entry would fault in the source (reading a field of
`undefined`) and is modelled as a no-op; both are unreachable after the
initialization effect. -/
def handleStatus (suite : TestSuite) (status : TestStatus) (notes : Option String)
    (now : String) (st : RunnerState) : RunnerState :=
  match suite.cases[st.currentCaseIndex]? with
  | none => st
  | some c =>
    match lookupEntry st.results c.id with
    | none => st
    | some old =>
      let newNotes :=
        match notes with
        | some n => if n == "" then old.notes else some n
        | none => old.notes
      let newRes := { old with status := status, notes := newNotes, timestamp := now }
      let advance :=
        !(isAutomatedMode suite) && status != TestStatus.IDLE && !(isLastCase suite st)
      { st with
        results := setEntry st.results c.id newRes
        currentCaseIndex :=
          if advance then st.currentCaseIndex + 1 else st.currentCaseIndex }

/-- The continuation of `runSimulation` after `simulateTestExecution`
resolves: record the log text for the current case and apply the verdict
via `handleStatus`. There is no operation-token or staleness check here. -/
def runSimulationResolve (suite : TestSuite) (now : String)
    (resp : TestStatus × String) (st : RunnerState) : RunnerState :=
  match suite.cases[st.currentCaseIndex]? with
  | none => st
  | some c =>
    handleStatus suite resp.1 (some resp.2) now
      { st with simulatedLogs := setEntry st.simulatedLogs c.id resp.2 }

/-- One firing of the automated-execution effect: do nothing unless in
automated mode with the loop running; if the current case is already
processed, advance past it (or stop the loop at the last case);
otherwise run the simulation for the current case and record its result. -/
def autoStep (suite : TestSuite) (api : SimApi) (now : String) (st : RunnerState) :
    RunnerState :=
  if !(isAutomatedMode suite) || !st.isAutoRunning then st
  else
    match suite.cases[st.currentCaseIndex]? with
    | none => st
    | some c =>
      if (lookupEntry st.results c.id).map (fun r => r.status) != some TestStatus.IDLE then
        if !(isLastCase suite st) then { st with currentCaseIndex := st.currentCaseIndex + 1 }
        else { st with isAutoRunning := false }
      else
        runSimulationResolve suite now (simulateTestExecution api) st

/-- The back-arrow navigation button: disabled at index 0 or while the
automation loop runs; otherwise `setCurrentCaseIndex(Math.max(0, i - 1))`. -/
def navPrev (st : RunnerState) : RunnerState :=
  if st.currentCaseIndex == 0 || st.isAutoRunning then st
  else { st with currentCaseIndex := st.currentCaseIndex - 1 }

/-- The forward-arrow navigation button: disabled at the last case or
while the automation loop runs; otherwise
`setCurrentCaseIndex(Math.min(len - 1, i + 1))`. -/
def navNext (suite : TestSuite) (st : RunnerState) : RunnerState :=
  if isLastCase suite st || st.isAutoRunning then st
  else { st with currentCaseIndex := min (suite.cases.length - 1) (st.currentCaseIndex + 1) }

/-- The sidebar case list: clicking case `idx` moves the cursor unless
the run is in automated mode. -/
def sidebarSelect (suite : TestSuite) (idx : Nat) (st : RunnerState) : RunnerState :=
  if isAutomatedMode suite then st else { st with currentCaseIndex := idx }

/-- Embeds `handleFinish` from TestRunner: stamp an end time and emit the
completed run record built from the current result record. -/
def handleFinish (suite : TestSuite) (runId startTime now : String)
    (st : RunnerState) : TestRun :=
  { id := runId
    suiteId := suite.id
    suiteName := suite.name
    startTime := startTime
    endTime := some now
    status := RunStatus.COMPLETED
    results := st.results }

-- ------------------------------------------------------------------
-- Runner lemmas
-- ------------------------------------------------------------------

theorem initialResults_aux (cs : List TestCase) (now : String)
    (acc : List (String × TestResult))
    (hacc : ∀ cid r, lookupEntry acc cid = some r → r.status = TestStatus.IDLE) :
    ∀ cid r,
      lookupEntry
        (cs.foldl
          (fun acc c =>
            setEntry acc c.id
              { caseId := c.id, status := TestStatus.IDLE, notes := none, timestamp := now })
          acc) cid = some r →
      r.status = TestStatus.IDLE := by
  induction cs generalizing acc with
  | nil => exact hacc
  | cons c cs ih =>
    refine ih _ ?_
    intro cid r h
    rcases lookupEntry_setEntry_or acc c.id cid _ r h with hold | hnew
    · exact hacc cid r hold
    · rw [hnew]

theorem initialResults_status (suite : TestSuite) (now : String) (cid : String)
    (r : TestResult) (h : lookupEntry (initialResults suite now) cid = some r) :
    r.status = TestStatus.IDLE := by
  refine initialResults_aux suite.cases now [] ?_ cid r h
  intro cid r h
  simp [lookupEntry] at h

theorem autoStep_on_idle (suite : TestSuite) (api : SimApi) (now : String)
    (st : RunnerState) (c : TestCase) (old : TestResult)
    (hAuto : isAutomatedMode suite = true) (hRun : st.isAutoRunning = true)
    (hc : suite.cases[st.currentCaseIndex]? = some c)
    (hold : lookupEntry st.results c.id = some old)
    (hstat : old.status = TestStatus.IDLE) :
    autoStep suite api now st =
      { st with
        simulatedLogs := setEntry st.simulatedLogs c.id (simulateTestExecution api).2
        results := setEntry st.results c.id
          { old with
            status := (simulateTestExecution api).1
            notes :=
              if (simulateTestExecution api).2 == "" then old.notes
              else some (simulateTestExecution api).2
            timestamp := now } } := by
  unfold autoStep
  rw [hAuto, hRun]
  rw [if_neg (by decide)]
  simp only [hc, hold, hstat, Option.map_some']
  rw [if_neg (by decide)]
  unfold runSimulationResolve
  simp only [hc]
  unfold handleStatus
  simp only [hc, hold, hAuto, Bool.not_true, Bool.false_and, Bool.and_false]
  simp [hRun]

theorem autoStep_past_done (suite : TestSuite) (api : SimApi) (now : String)
    (st : RunnerState) (c : TestCase)
    (hAuto : isAutomatedMode suite = true) (hRun : st.isAutoRunning = true)
    (hc : suite.cases[st.currentCaseIndex]? = some c)
    (hdone : (lookupEntry st.results c.id).map (fun r => r.status) ≠ some TestStatus.IDLE) :
    autoStep suite api now st =
      if isLastCase suite st then { st with isAutoRunning := false }
      else { st with currentCaseIndex := st.currentCaseIndex + 1 } := by
  unfold autoStep
  rw [hAuto, hRun]
  rw [if_neg (by decide)]
  simp only [hc]
  rw [if_pos (by simpa using hdone)]
  by_cases hl : isLastCase suite st = true
  · simp [hl]
  · have hl' : isLastCase suite st = false := by
      cases h : isLastCase suite st
      · rfl
      · exact absurd h hl
    simp [hl']

/-- The automated loop, navigation and the completed-run record never
rewrite an already-terminal case result: `autoStep` leaves every
non-`IDLE` entry untouched. -/
theorem autoStep_preserves_terminal (suite : TestSuite) (api : SimApi) (now : String)
    (st : RunnerState) (cid : String) (r : TestResult)
    (hr : lookupEntry st.results cid = some r) (hterm : r.status ≠ TestStatus.IDLE) :
    lookupEntry (autoStep suite api now st).results cid = some r := by
  unfold autoStep
  by_cases hg : (!(isAutomatedMode suite) || !st.isAutoRunning) = true
  · rw [if_pos hg]
    exact hr
  · rw [if_neg hg]
    cases hc : suite.cases[st.currentCaseIndex]? with
    | none => exact hr
    | some c =>
      dsimp only
      by_cases hdone :
          ((lookupEntry st.results c.id).map (fun r => r.status) != some TestStatus.IDLE) = true
      · rw [if_pos hdone]
        by_cases hl : (!(isLastCase suite st)) = true
        · rw [if_pos hl]
          exact hr
        · rw [if_neg hl]
          exact hr
      · rw [if_neg hdone]
        have hidle : (lookupEntry st.results c.id).map (fun r => r.status)
            = some TestStatus.IDLE := by
          simpa using hdone
        have hne : cid ≠ c.id := by
          intro hcid
          rw [← hcid, hr] at hidle
          simp only [Option.map_some', Option.some.injEq] at hidle
          exact hterm hidle
        unfold runSimulationResolve
        simp only [hc]
        unfold handleStatus
        simp only [hc]
        cases hlk : lookupEntry st.results c.id with
        | none => exact hr
        | some old =>
          dsimp only
          rw [lookupEntry_setEntry_ne _ _ _ _ (Ne.symm hne)]
          exact hr

theorem navPrev_results (st : RunnerState) : (navPrev st).results = st.results := by
  unfold navPrev
  split
  · rfl
  · rfl

theorem navNext_results (suite : TestSuite) (st : RunnerState) :
    (navNext suite st).results = st.results := by
  unfold navNext
  split
  · rfl
  · rfl

theorem sidebarSelect_results (suite : TestSuite) (idx : Nat) (st : RunnerState) :
    (sidebarSelect suite idx st).results = st.results := by
  unfold sidebarSelect
  split
  · rfl
  · rfl

-- Fixtures for the runner claims.

/-- A first test case. -/
def loginCase : TestCase :=
  { id := "c1", title := "유효한 로그인", description := some "로그인 확인"
    steps := [], priority := CasePriority.High }

/-- A second test case. -/
def footerCase : TestCase :=
  { id := "c2", title := "바닥글 링크 확인", description := none
    steps := [], priority := CasePriority.Low }

/-- A two-case suite frozen in manual execution mode. -/
def manualSuite : TestSuite :=
  { id := "10", name := "수동 실행", description := "", createdAt := "2026-01-05"
    cases := [loginCase, footerCase]
    permissions := some [("u1", Role.ADMIN)]
    targetConfig := some
      { appType := AppContextType.WEB, appAddress := "https://example.com"
        testEmail := none, executionMode := some ExecutionMode.MANUAL, mockAssets := none } }

/-- The same two-case suite frozen in automated execution mode. -/
def autoSuite : TestSuite :=
  { id := "11", name := "자동 실행", description := "", createdAt := "2026-01-05"
    cases := [loginCase, footerCase]
    permissions := some [("u1", Role.ADMIN)]
    targetConfig := some
      { appType := AppContextType.WEB, appAddress := "https://example.com"
        testEmail := none, executionMode := some ExecutionMode.AUTOMATED, mockAssets := none } }

/-- The `IDLE` record seeded for the first case at start time `t0`. -/
def idleRecC1 : TestResult :=
  { caseId := "c1", status := TestStatus.IDLE, notes := none, timestamp := "t0" }

/-- Manual run, freshly mounted. -/
def manualRun0 : RunnerState := initRunner manualSuite "t0"

/-- The operator passes the first case (the cursor auto-advances). -/
def manualRun1 : RunnerState :=
  handleStatus manualSuite TestStatus.PASSED none "t1" manualRun0

/-- The operator navigates back to the already-judged first case. -/
def manualRun2 : RunnerState := navPrev manualRun1

/-- The operator issues a second verdict on the already-passed case. -/
def manualRun3 : RunnerState :=
  handleStatus manualSuite TestStatus.FAILED none "t2" manualRun2

/-- Automated run, freshly mounted. -/
def autoRun0 : RunnerState := initRunner autoSuite "t0"

/-- Automated run after the loop records a `FAILED` verdict on case 1. -/
def autoRun1 : RunnerState :=
  autoStep autoSuite (SimApi.ok TestStatus.FAILED "오류 로그") "t1" autoRun0

-- ------------------------------------------------------------------
-- C4: terminal statuses within a run
-- ------------------------------------------------------------------

/-- Counterexample to C4: in manual mode the operator passes case `c1`,
navigates the cursor back, and issues `FAILED`; the recorded status
transitions out of the terminal `PASSED` into `FAILED`. -/
theorem c4_terminal_counterexample :
    (lookupEntry manualRun1.results "c1").map (fun r => r.status) = some TestStatus.PASSED
    ∧ manualRun1.currentCaseIndex = 1
    ∧ manualRun2.currentCaseIndex = 0
    ∧ (lookupEntry manualRun3.results "c1").map (fun r => r.status)
        = some TestStatus.FAILED := by
  decide

/-- C4 (amended): `IDLE` is the initial status of every case when a run
starts; the automated loop never transitions a case out of a terminal
status and cursor navigation never changes any recorded result — but a
manual-mode operator verdict overwrites the current case's result
unconditionally, so terminal statuses are not final against re-issued
manual verdicts. -/
theorem c4_terminal_statuses_amended (suite : TestSuite) (now now2 : String)
    (api : SimApi) (st : RunnerState) (cid : String) (r : TestResult) (idx : Nat) :
    (∀ r0, lookupEntry (initialResults suite now) cid = some r0 →
        r0.status = TestStatus.IDLE)
    ∧ (lookupEntry st.results cid = some r → r.status ≠ TestStatus.IDLE →
        lookupEntry (autoStep suite api now2 st).results cid = some r)
    ∧ (navPrev st).results = st.results
    ∧ (navNext suite st).results = st.results
    ∧ (sidebarSelect suite idx st).results = st.results :=
  ⟨fun r0 h => initialResults_status suite now cid r0 h,
    fun hr ht => autoStep_preserves_terminal suite api now2 st cid r hr ht,
    navPrev_results st, navNext_results suite st, sidebarSelect_results suite idx st⟩

/-- Witness for C4 (amended): on the automated two-case suite, the seeded
record for `c1` is `IDLE`, and after the loop records `FAILED` for `c1` a
further automated step (even a failing one) leaves that record intact. -/
theorem c4_terminal_statuses_amended_witness :
    lookupEntry (initialResults autoSuite "t0") "c1" = some idleRecC1
    ∧ idleRecC1.status = TestStatus.IDLE
    ∧ lookupEntry autoRun1.results "c1"
        = some { caseId := "c1", status := TestStatus.FAILED
                 notes := some "오류 로그", timestamp := "t1" }
    ∧ lookupEntry (autoStep autoSuite SimApi.apiError "t2" autoRun1).results "c1"
        = some { caseId := "c1", status := TestStatus.FAILED
                 notes := some "오류 로그", timestamp := "t1" } := by
  have h := c4_terminal_statuses_amended autoSuite "t0" "t2" SimApi.apiError autoRun1 "c1"
    { caseId := "c1", status := TestStatus.FAILED, notes := some "오류 로그", timestamp := "t1" } 0
  exact ⟨by decide, h.1 idleRecC1 (by decide), by decide, h.2.1 (by decide) (by decide)⟩

-- ------------------------------------------------------------------
-- C5: simulation failure is recovered as SKIPPED and the run proceeds
-- ------------------------------------------------------------------

/-- C5: `simulateTestExecution` never propagates a failure of its body,
returning the `SKIPPED` fallback instead; when the remote call errors on
an unprocessed case, the automated step records that case as `SKIPPED`
with the fixed fallback note, keeps the loop running, and the next
automated step advances to the following case instead of aborting. -/
theorem c5_sim_failure_skipped (api : SimApi) (e : String) (suite : TestSuite)
    (now now2 : String) (st : RunnerState) (c : TestCase) (old : TestResult)
    (api2 : SimApi)
    (hAuto : isAutomatedMode suite = true) (hRun : st.isAutoRunning = true)
    (hc : suite.cases[st.currentCaseIndex]? = some c)
    (hold : lookupEntry st.results c.id = some old)
    (hstat : old.status = TestStatus.IDLE) :
    (simulateTestExecutionTry api = Except.error e →
        simulateTestExecution api = (TestStatus.SKIPPED, simulationFallbackNote))
    ∧ lookupEntry (autoStep suite SimApi.apiError now st).results c.id
        = some { old with
                 status := TestStatus.SKIPPED
                 notes := some simulationFallbackNote, timestamp := now }
    ∧ (autoStep suite SimApi.apiError now st).isAutoRunning = true
    ∧ (autoStep suite SimApi.apiError now st).currentCaseIndex = st.currentCaseIndex
    ∧ (isLastCase suite st = false →
        (autoStep suite api2 now2 (autoStep suite SimApi.apiError now st)).currentCaseIndex
          = st.currentCaseIndex + 1) := by
  have hstep := autoStep_on_idle suite SimApi.apiError now st c old hAuto hRun hc hold hstat
  have hfb : ((simulateTestExecution SimApi.apiError).2 == "") = false := by decide
  refine ⟨?_, ?_, ?_, ?_, ?_⟩
  · intro h
    unfold simulateTestExecution
    rw [h]
  · rw [hstep]
    dsimp only
    rw [lookupEntry_setEntry_self]
    rw [hfb]
    rfl
  · rw [hstep]
    exact hRun
  · rw [hstep]
  · intro hlast
    rw [hstep]
    have hdone : (lookupEntry
        (setEntry st.results c.id
          { old with
            status := (simulateTestExecution SimApi.apiError).1
            notes :=
              if (simulateTestExecution SimApi.apiError).2 == "" then old.notes
              else some (simulateTestExecution SimApi.apiError).2
            timestamp := now }) c.id).map (fun r => r.status)
        ≠ some TestStatus.IDLE := by
      rw [lookupEntry_setEntry_self]
      simp only [Option.map_some', Option.some.injEq]
      decide
    have hpast := autoStep_past_done suite api2 now2
      { st with
        simulatedLogs := setEntry st.simulatedLogs c.id (simulateTestExecution SimApi.apiError).2
        results := setEntry st.results c.id
          { old with
            status := (simulateTestExecution SimApi.apiError).1
            notes :=
              if (simulateTestExecution SimApi.apiError).2 == "" then old.notes
              else some (simulateTestExecution SimApi.apiError).2
            timestamp := now } }
      c hAuto hRun hc hdone
    rw [hpast]
    have hl2 : isLastCase suite
        { st with
          simulatedLogs := setEntry st.simulatedLogs c.id (simulateTestExecution SimApi.apiError).2
          results := setEntry st.results c.id
            { old with
              status := (simulateTestExecution SimApi.apiError).1
              notes :=
                if (simulateTestExecution SimApi.apiError).2 == "" then old.notes
                else some (simulateTestExecution SimApi.apiError).2
              timestamp := now } } = false := hlast
    rw [hl2]
    rfl

/-- Witness for C5: on the freshly mounted automated run, an erroring
remote call records `c1` as `SKIPPED` with the fixed fallback note, the
loop keeps running, and the next step advances the cursor to case 2. -/
theorem c5_sim_failure_skipped_witness :
    simulateTestExecutionTry SimApi.apiError = Except.error "API call failed"
    ∧ simulateTestExecution SimApi.apiError = (TestStatus.SKIPPED, simulationFallbackNote)
    ∧ lookupEntry (autoStep autoSuite SimApi.apiError "t1" autoRun0).results "c1"
        = some { caseId := "c1", status := TestStatus.SKIPPED
                 notes := some simulationFallbackNote, timestamp := "t1" }
    ∧ (autoStep autoSuite SimApi.apiError "t1" autoRun0).isAutoRunning = true
    ∧ (autoStep autoSuite (SimApi.ok TestStatus.PASSED "성공") "t2"
        (autoStep autoSuite SimApi.apiError "t1" autoRun0)).currentCaseIndex
        = autoRun0.currentCaseIndex + 1 := by
  have h := c5_sim_failure_skipped SimApi.apiError "API call failed" autoSuite "t1" "t2"
    autoRun0 loginCase idleRecC1 (SimApi.ok TestStatus.PASSED "성공")
    (by decide) (by decide) (by decide) (by decide) (by decide)
  exact ⟨rfl, h.1 rfl, h.2.1, h.2.2.1, h.2.2.2.2 (by decide)⟩

-- ------------------------------------------------------------------
-- Generation operation token (SuiteManager handleGenerateCases)
-- ------------------------------------------------------------------

/-- The SuiteManager generation state: the suites state plus the
`genOpRef` operation token and the `isGenerating` flag. -/
structure GenState where
  sm : SMState
  genOp : Nat
  isGenerating : Bool
deriving DecidableEq, Repr

/-- The issuance half of `handleGenerateCases`: record the fresh
operation id in `genOpRef` and raise the generating flag before awaiting
the remote call. -/
def issueGeneration (opId : Nat) (st : GenState) : GenState :=
  { st with genOp := opId, isGenerating := true }

/-- The resolution half of `handleGenerateCases`, applied when
`generateTestCases` resolves: dropped entirely when the operation id no
longer matches `genOpRef`; otherwise the new cases are appended to the
captured active suite (seeding its target configuration when absent and
not in import mode) and the generating flag is cleared. -/
def resolveGeneration (opId : Nat) (captured : Option String) (importMode : Bool)
    (genAppType : AppContextType) (appContextValue testEmailValue : String)
    (newCases : List TestCase) (st : GenState) : GenState :=
  if st.genOp != opId then st
  else
    { st with
      isGenerating := false
      sm := { st.sm with
        suites := st.sm.suites.map (fun suite =>
          if some suite.id == captured then
            let updatedSuite := { suite with cases := suite.cases ++ newCases }
            if suite.targetConfig.isNone && !importMode then
              { updatedSuite with
                targetConfig := some
                  { appType := genAppType, appAddress := appContextValue
                    testEmail := some testEmailValue, executionMode := none
                    mockAssets := none } }
            else updatedSuite
          else suite) } }

/-- Embeds `handleCancelGeneration`: zero the token (making any in-flight
response stale) and clear the generating flag. -/
def handleCancelGeneration (st : GenState) : GenState :=
  { st with genOp := 0, isGenerating := false }

/-- Modelled from the spec: §5 requires every automated-simulation
response to carry an issuance token and to be applied only while that
token matches the current-operation reference, being silently dropped
otherwise. No such token exists in the source `TestRunner.runSimulation`,
whose resolution (`runSimulationResolve`) applies the response
unconditionally; this definition states the claimed guarded behaviour
for comparison with the source. -/
def specGuardedSimResolve (issuedToken currentToken : Nat) (suite : TestSuite)
    (now : String) (resp : TestStatus × String) (st : RunnerState) : RunnerState :=
  if issuedToken == currentToken then runSimulationResolve suite now resp st else st

/-- A generation state over the two-suite collection with token 42 live. -/
def demoGen : GenState := { sm := demoSM, genOp := 42, isGenerating := true }

-- ------------------------------------------------------------------
-- C6: operation-token staleness guard
-- ------------------------------------------------------------------

/-- Counterexample to C6: the claim requires a stale simulation response
(issued under token 1 while the current operation is 2) to be silently
dropped, leaving the runner state unchanged; the source's resolution
applies the response unconditionally and does change the state. -/
theorem c6_sim_token_counterexample :
    specGuardedSimResolve 1 2 autoSuite "t1" (TestStatus.PASSED, "통과 로그") autoRun0
      = autoRun0
    ∧ runSimulationResolve autoSuite "t1" (TestStatus.PASSED, "통과 로그") autoRun0
      ≠ autoRun0 := by
  constructor
  · rfl
  · decide

/-- C6 (amended): automated-generation requests are tagged with an
operation token at issuance and their responses are applied only while
the token still matches `genOpRef` — a mismatching response is silently
dropped, cancellation zeroes the token, and a matching response mutates
the collection without changing its length. (Automated-simulation
responses carry no such token; see the counterexample.) -/
theorem c6_generation_token_amended (opId : Nat) (captured : Option String)
    (importMode : Bool) (genAppType : AppContextType)
    (appContextValue testEmailValue : String) (newCases : List TestCase)
    (st : GenState) :
    (st.genOp ≠ opId →
        resolveGeneration opId captured importMode genAppType appContextValue
          testEmailValue newCases st = st)
    ∧ (issueGeneration opId st).genOp = opId
    ∧ (handleCancelGeneration st).genOp = 0
    ∧ (st.genOp = opId →
        (resolveGeneration opId captured importMode genAppType appContextValue
            testEmailValue newCases st).sm.suites.length = st.sm.suites.length
        ∧ (resolveGeneration opId captured importMode genAppType appContextValue
            testEmailValue newCases st).isGenerating = false) := by
  refine ⟨?_, rfl, rfl, ?_⟩
  · intro h
    unfold resolveGeneration
    rw [if_pos]
    simpa using h
  · intro h
    unfold resolveGeneration
    rw [if_neg (by simp [h])]
    exact ⟨List.length_map _ _, rfl⟩

/-- Witness for C6 (amended): a response issued under token 7 arriving
while `genOpRef` holds 42 is dropped; issuance and cancellation set the
token; a token-matching response keeps the two-suite collection length. -/
theorem c6_generation_token_amended_witness :
    demoGen.genOp ≠ 7
    ∧ resolveGeneration 7 (some "1") false AppContextType.WEB "" "" [loginCase] demoGen
        = demoGen
    ∧ (issueGeneration 7 demoGen).genOp = 7
    ∧ (handleCancelGeneration demoGen).genOp = 0
    ∧ (resolveGeneration 42 (some "1") false AppContextType.WEB "" "" [loginCase]
        demoGen).sm.suites.length = 2 := by
  have h1 := c6_generation_token_amended 7 (some "1") false AppContextType.WEB "" ""
    [loginCase] demoGen
  have h2 := c6_generation_token_amended 42 (some "1") false AppContextType.WEB "" ""
    [loginCase] demoGen
  exact ⟨by decide, h1.1 (by decide), h1.2.1, h1.2.2.1,
    ((h2.2.2.2 rfl).1).trans (by decide)⟩

-- ------------------------------------------------------------------
-- Run outcome classification (App handleRunComplete / Dashboard)
-- ------------------------------------------------------------------

/-- Embeds `Object.keys(run.results).length` in `handleRunComplete` (the same
formula appears in the Dashboard recent-runs list). -/
def runTotal (results : List (String × TestResult)) : Nat := results.length

/-- Embeds `Object.values(run.results).filter(r => r.status === 'PASSED').length`. -/
def runPassed (results : List (String × TestResult)) : Nat :=
  (results.filter (fun p => p.2.status == TestStatus.PASSED)).length

/-- Embeds `passRate = total > 0 ? (passed / total) * 100 : 0`, over exact
rationals (the source computes in JS numbers). -/
def passRate (results : List (String × TestResult)) : ℚ :=
  if 0 < runTotal results then
    ((runPassed results : ℚ) / (runTotal results : ℚ)) * 100
  else 0

/-- Embeds `isSuccess = passRate >= 90`, computed on the unrounded value. -/
def isSuccess (results : List (String × TestResult)) : Bool :=
  decide (passRate results ≥ 90)

/-- Embeds `passRate % 1 === 0 ? passRate.toFixed(0) : passRate.toFixed(1)`:
the integer form when the value has no fractional part, otherwise one
decimal place (decimal rounding, as `toFixed` performs on these values). -/
def formattedPassRate (results : List (String × TestResult)) : String :=
  let q := passRate results
  if q.den == 1 then toString q.num
  else
    let n := (Rat.floor (q * 10 + 1 / 2)).toNat
    toString (n / 10) ++ "." ++ toString (n % 10)

/-- A result entry with the given status. -/
def mkResult (cid : String) (s : TestStatus) : String × TestResult :=
  (cid, { caseId := cid, status := s, notes := none, timestamp := "t" })

/-- Ten cases, nine passed. -/
def run10of9 : List (String × TestResult) :=
  [mkResult "1" TestStatus.PASSED, mkResult "2" TestStatus.PASSED,
   mkResult "3" TestStatus.PASSED, mkResult "4" TestStatus.PASSED,
   mkResult "5" TestStatus.PASSED, mkResult "6" TestStatus.PASSED,
   mkResult "7" TestStatus.PASSED, mkResult "8" TestStatus.PASSED,
   mkResult "9" TestStatus.PASSED, mkResult "10" TestStatus.FAILED]

/-- Ten cases, eight passed. -/
def run10of8 : List (String × TestResult) :=
  [mkResult "1" TestStatus.PASSED, mkResult "2" TestStatus.PASSED,
   mkResult "3" TestStatus.PASSED, mkResult "4" TestStatus.PASSED,
   mkResult "5" TestStatus.PASSED, mkResult "6" TestStatus.PASSED,
   mkResult "7" TestStatus.PASSED, mkResult "8" TestStatus.PASSED,
   mkResult "9" TestStatus.FAILED, mkResult "10" TestStatus.SKIPPED]

/-- Three cases, two passed. -/
def run3of2 : List (String × TestResult) :=
  [mkResult "1" TestStatus.PASSED, mkResult "2" TestStatus.PASSED,
   mkResult "3" TestStatus.FAILED]

-- ------------------------------------------------------------------
-- C7: run classification
-- ------------------------------------------------------------------

/-- C7: `passRate = 100 * passed / total` with 0 at `total = 0`;
`isSuccess` holds exactly when the unrounded rate is at least 90; and the
fixed examples: empty → (0, false), 9/10 → (90, true), 8/10 → (80, false),
2/3 → displayed "66.7" and false. -/
theorem c7_run_classification (results : List (String × TestResult)) :
    passRate results
      = (if results.length = 0 then 0
         else 100 * (runPassed results : ℚ) / (results.length : ℚ))
    ∧ (isSuccess results = true ↔ passRate results ≥ 90)
    ∧ passRate [] = 0 ∧ isSuccess [] = false
    ∧ passRate run10of9 = 90 ∧ isSuccess run10of9 = true
    ∧ passRate run10of8 = 80 ∧ isSuccess run10of8 = false
    ∧ formattedPassRate run3of2 = "66.7" ∧ isSuccess run3of2 = false := by
  have hp0 : passRate [] = 0 := rfl
  have hp9 : passRate run10of9 = 90 := by
    norm_num [passRate, show runPassed run10of9 = 9 from by decide,
      show runTotal run10of9 = 10 from by decide]
  have hp8 : passRate run10of8 = 80 := by
    norm_num [passRate, show runPassed run10of8 = 8 from by decide,
      show runTotal run10of8 = 10 from by decide]
  have hp3 : passRate run3of2 = 200 / 3 := by
    norm_num [passRate, show runPassed run3of2 = 2 from by decide,
      show runTotal run3of2 = 3 from by decide]
  refine ⟨?_, ?_, hp0, ?_, hp9, ?_, hp8, ?_, ?_, ?_⟩
  · unfold passRate runTotal
    by_cases h : results.length = 0
    · simp [h]
    · have hpos : 0 < results.length := Nat.pos_of_ne_zero h
      rw [if_pos hpos, if_neg h]
      ring
  · unfold isSuccess
    exact decide_eq_true_iff
  · unfold isSuccess
    refine decide_eq_false ?_
    rw [hp0]
    norm_num
  · unfold isSuccess
    refine decide_eq_true ?_
    rw [hp9]
  · unfold isSuccess
    refine decide_eq_false ?_
    rw [hp8]
    norm_num
  · unfold formattedPassRate
    rw [hp3]
    rw [if_neg]
    · have hfloor : Rat.floor ((200 : ℚ) / 3 * 10 + 1 / 2) = 667 := by
        norm_num [Rat.floor_def']
      rw [hfloor]
      decide
    · have h3 : ((200 : ℚ) / 3).den = 3 := by norm_num
      rw [h3]
      decide
  · unfold isSuccess
    refine decide_eq_false ?_
    rw [hp3]
    norm_num

-- ------------------------------------------------------------------
-- Result export (TestRunner exportResults)
-- ------------------------------------------------------------------

/-- The `.replace(/"/g, '""')` CSV quote escaping. -/
def csvEscapeQuotes (s : String) : String := s.replace "\"" "\"\""

/-- The literal status name serialized into the CSV. -/
def statusToString : TestStatus → String
  | TestStatus.IDLE => "IDLE"
  | TestStatus.PASSED => "PASSED"
  | TestStatus.FAILED => "FAILED"
  | TestStatus.SKIPPED => "SKIPPED"

/-- The literal priority name serialized into the CSV. -/
def priorityToString : CasePriority → String
  | CasePriority.Low => "Low"
  | CasePriority.Medium => "Medium"
  | CasePriority.High => "High"

/-- Embeds `const status = result?.status || 'SKIPPED'` in `exportResults`:
every recorded status name is a truthy (non-empty) string — `'IDLE'`
included — so `'SKIPPED'` stands in only when the entry is unset. -/
def exportStatusFor (results : List (String × TestResult)) (c : TestCase) : String :=
  match lookupEntry results c.id with
  | some r => statusToString r.status
  | none => "SKIPPED"

/-- Embeds `result?.notes ? result.notes.replace(/"/g, '""') : ''`. -/
def exportNotesFor (results : List (String × TestResult)) (c : TestCase) : String :=
  match (lookupEntry results c.id).bind (fun r => r.notes) with
  | some n => if n == "" then "" else csvEscapeQuotes n
  | none => ""

/-- One CSV row of `exportResults`: quoted id, quoted escaped title,
priority, status, quoted escaped notes. -/
def exportRow (results : List (String × TestResult)) (c : TestCase) : String :=
  "\"" ++ c.id ++ "\"" ++ "," ++ "\"" ++ csvEscapeQuotes c.title ++ "\"" ++ ","
    ++ priorityToString c.priority ++ "," ++ exportStatusFor results c ++ ","
    ++ "\"" ++ exportNotesFor results c ++ "\""

/-- The CSV header row of `exportResults`. -/
def exportHeader : String := "Test Case ID,Title,Priority,Status,Execution Notes/Logs"

/-- The CSV content of `exportResults` (the UTF-8 byte-order mark
prepended to the download blob is presentation only). It reads the
current result record and never writes it, and is defined in every
state, mid-run included. -/
def exportResultsCsv (suite : TestSuite) (results : List (String × TestResult)) : String :=
  String.intercalate "\n" (exportHeader :: suite.cases.map (exportRow results))

/-- A result record holding an `IDLE` entry for `c1`. -/
def idleResults : List (String × TestResult) :=
  [("c1", { caseId := "c1", status := TestStatus.IDLE, notes := none, timestamp := "t0" })]

/-- A result record holding a `PASSED` entry for `c1`. -/
def passedRec : TestResult :=
  { caseId := "c1", status := TestStatus.PASSED, notes := some "확인 완료", timestamp := "t1" }

/-- The singleton record holding `passedRec`. -/
def passedResults : List (String × TestResult) := [("c1", passedRec)]

-- ------------------------------------------------------------------
-- C8: export serialization of IDLE/unset entries
-- ------------------------------------------------------------------

/-- Counterexample to C8: a case whose recorded status is `IDLE` is
exported with status `IDLE`, not `SKIPPED` — `'IDLE'` is a truthy string,
so `result?.status || 'SKIPPED'` keeps it. -/
theorem c8_idle_export_counterexample :
    (lookupEntry idleResults loginCase.id).map (fun r => r.status) = some TestStatus.IDLE
    ∧ exportStatusFor idleResults loginCase = "IDLE"
    ∧ exportStatusFor idleResults loginCase ≠ "SKIPPED" := by
  decide

/-- C8 (amended): the export reports a case whose result entry is unset
as `SKIPPED`; a case with a recorded entry — a recorded `IDLE` included —
is reported with exactly its recorded status name; the serialization
reads the result record without modifying it, emits one row per case in
suite order, and is defined in every state, mid-run included. -/
theorem c8_export_amended (results : List (String × TestResult)) (c : TestCase)
    (r : TestResult) (suite : TestSuite) :
    (lookupEntry results c.id = none → exportStatusFor results c = "SKIPPED")
    ∧ (lookupEntry results c.id = some r →
        exportStatusFor results c = statusToString r.status)
    ∧ (suite.cases.map (exportRow results)).length = suite.cases.length := by
  refine ⟨?_, ?_, List.length_map _ _⟩
  · intro h
    unfold exportStatusFor
    rw [h]
  · intro h
    unfold exportStatusFor
    rw [h]

/-- Witness for C8 (amended): with no entry for `c1` the export says
`SKIPPED`; with a recorded `PASSED` entry it says `PASSED`. -/
theorem c8_export_amended_witness :
    lookupEntry ([] : List (String × TestResult)) loginCase.id = none
    ∧ exportStatusFor [] loginCase = "SKIPPED"
    ∧ lookupEntry passedResults loginCase.id = some passedRec
    ∧ exportStatusFor passedResults loginCase = statusToString passedRec.status := by
  have h1 := c8_export_amended [] loginCase passedRec authSuite
  have h2 := c8_export_amended passedResults loginCase passedRec authSuite
  exact ⟨rfl, h1.1 rfl, by decide, h2.2.1 (by decide)⟩

end AutoTest
